import Mathlib

/-
Shallow embedding of the adaptive encode/decode context manager of xpra
(src/xpra/x264/x264lib.c and src/xpra/vpx/vpxlib.c), for checking the
natural-language specification against the code.

Modelling conventions:
* C `int` values become `Int`; the float expressions in `get_x264_quality`
  and `set_encoding_speed` are evaluated over `ℚ`.  For the integer inputs
  that occur, the C double computations are exact up to the final
  rounding/truncation step, which is modelled explicitly (`round`,
  `Int.floor`), so the rational model agrees with the C float model.
* Engine and converter handles (`x264_t*`, `SwsContext*`, `AVCodecContext*`)
  become generation counters (`Nat`, with `0` standing for NULL): creating a
  fresh handle increments the counter, so a freshly created handle is never
  equal to the previous one, and identity of a live handle is plain equality.
* Calls into the external engine libraries are modelled by passing their
  observable outcome (return codes, produced frame data) as extra arguments,
  and the side effects the code performs on the engine/converter are recorded
  in an explicit event trace.
* The source is compiled with SUPPORT_CSC_MODES defined and on a non-WIN32
  platform; the embedding follows those (active) preprocessor branches.
-/

/-! ## Constants from the source and the external library headers -/

def I422_MIN_QUALITY : Int := 80

def I444_MIN_QUALITY : Int := 90

/-- libswscale flag SWS_SINC (0x100). -/
def SWS_SINC : Nat := 256

/-- libswscale flag SWS_ACCURATE_RND (0x40000). -/
def SWS_ACCURATE_RND : Nat := 262144

/-- libavcodec pixel-format constant PIX_FMT_YUV420P. -/
def PIX_FMT_YUV420P : Int := 0

/-- libavcodec pixel-format constant PIX_FMT_RGB24. -/
def PIX_FMT_RGB24 : Int := 2

/-- libavcodec pixel-format constant PIX_FMT_YUV422P. -/
def PIX_FMT_YUV422P : Int := 4

/-- libavcodec pixel-format constant PIX_FMT_YUV444P. -/
def PIX_FMT_YUV444P : Int := 5

/-- The three x264 colour-sampling constants the code uses
(X264_CSP_I420, X264_CSP_I422, X264_CSP_I444). -/
inductive X264_CSP where
  | I420
  | I422
  | I444
deriving DecidableEq, Repr

def PROFILE_BASELINE : String := "baseline"

def PROFILE_MAIN : String := "main"

def PROFILE_HIGH : String := "high"

def PROFILE_HIGH10 : String := "high10"

def PROFILE_HIGH422 : String := "high422"

def PROFILE_HIGH444_PREDICTIVE : String := "high444"

/-- x264_preset_names from the x264 library header. -/
def x264_preset_names : List String :=
  ["ultrafast", "superfast", "veryfast", "faster", "fast", "medium",
   "slow", "slower", "veryslow", "placebo"]

/-! ## The x264lib context (struct x264lib_ctx, encoder-relevant fields) -/

/-- Encoder-side view of `struct x264lib_ctx`.  `encoder` and `rgb2yuv` are
handle generation counters (0 = NULL).  `x264_quality` holds the value of the
float field `x264_quality` (an integral float, result of `roundf`), as an
integer. -/
structure X264Ctx where
  width : Int
  height : Int
  csc_format : Int
  encoder : Nat
  rgb2yuv : Nat
  quality : Int
  supports_csc_option : Bool
  encoding_preset : Int
  x264_quality : Int
  colour_sampling : X264_CSP
  profile : String
  preset : String
  csc_algo : Nat
deriving DecidableEq, Repr

/-- `memset(ctx, 0, sizeof(struct x264lib_ctx))`: the all-zero context.
(The zeroed int field `colour_sampling` is not any of the three constants the
code ever stores; it is represented by `I420` here, and is overwritten by
`do_init_encoder` before it is ever read.) -/
def emptyX264Ctx : X264Ctx :=
  { width := 0, height := 0, csc_format := 0, encoder := 0, rgb2yuv := 0,
    quality := 0, supports_csc_option := false, encoding_preset := 0,
    x264_quality := 0, colour_sampling := X264_CSP.I420, profile := "",
    preset := "", csc_algo := 0 }

/-- Events recording the side effects on the underlying engine and colour
converter; used to state "no reconfiguration happened". -/
inductive Event where
  | engineClose
  | engineOpen
  | engineReconfig
  | cscFree
  | cscBuild
deriving DecidableEq, Repr

/-! ## QualityPolicy functions (x264lib.c lines 84-151) -/

/-- `float get_x264_quality(int pct)`:
`roundf(50.0 - (MIN(100, MAX(0, pct)) * 49.0 / 100.0))`.
For integer `pct` the double expression is exact (denominator 100, and the
only half-integer case 25.5 at pct=50 is exactly representable), and `roundf`
on these nonnegative values agrees with `round` on ℚ (half away from zero =
half up). -/
def get_x264_quality (pct : Int) : Int :=
  round ((50 : ℚ) - ((min 100 (max 0 pct) : Int) : ℚ) * 49 / 100)

/-- `int get_x264_colour_sampling(struct x264lib_ctx *ctx, int pct)`
(SUPPORT_CSC_MODES branch). -/
def get_x264_colour_sampling (ctx : X264Ctx) (pct : Int) : X264_CSP :=
  if ctx.supports_csc_option = false ∨ pct < I422_MIN_QUALITY then
    X264_CSP.I420
  else if pct < I444_MIN_QUALITY then
    X264_CSP.I422
  else
    X264_CSP.I444

/-- `int get_csc_format_for_x264_format(int i_csp)` (SUPPORT_CSC_MODES
branch; the argument is always one of the three constants, so the `-1`
fallthrough is unreachable here). -/
def get_csc_format_for_x264_format (i_csp : X264_CSP) : Int :=
  match i_csp with
  | X264_CSP.I420 => PIX_FMT_YUV420P
  | X264_CSP.I422 => PIX_FMT_YUV422P
  | X264_CSP.I444 => PIX_FMT_YUV444P

/-- `int get_csc_algo_for_quality(int initial_quality)`: always
`SWS_SINC | SWS_ACCURATE_RND` (the two flags occupy disjoint bits). -/
def get_csc_algo_for_quality (_initial_quality : Int) : Nat :=
  SWS_SINC ||| SWS_ACCURATE_RND

/-- `const char *get_profile_for_quality(int pct)`. -/
def get_profile_for_quality (pct : Int) : String :=
  if pct < I422_MIN_QUALITY then PROFILE_BASELINE
  else if pct < I444_MIN_QUALITY then PROFILE_HIGH422
  else PROFILE_HIGH444_PREDICTIVE

/-! ## Encoder lifecycle (x264lib.c lines 154-222) -/

/-- `struct SwsContext *init_encoder_csc(struct x264lib_ctx *ctx)`: frees the
current rgb2yuv converter if any and builds a fresh one (the caller stores the
returned handle in `ctx->rgb2yuv`; modelled here as the combined update). -/
def init_encoder_csc (ctx : X264Ctx) : X264Ctx × List Event :=
  ({ ctx with rgb2yuv := ctx.rgb2yuv + 1 },
   (if ctx.rgb2yuv ≠ 0 then [Event.cscFree] else []) ++ [Event.cscBuild])

/-- `void do_init_encoder(struct x264lib_ctx *ctx, int width, int height,
int initial_quality, int supports_csc_option)`: derives the full parameter
set, opens the x264 engine with it, and builds the RGB→YUV converter. -/
def do_init_encoder (ctx : X264Ctx) (width height initial_quality : Int)
    (supports_csc_option : Bool) : X264Ctx × List Event :=
  let c0 := { ctx with quality := initial_quality,
                       supports_csc_option := supports_csc_option }
  let cs := get_x264_colour_sampling c0 initial_quality
  let c1 := { c0 with colour_sampling := cs,
                      x264_quality := get_x264_quality initial_quality,
                      csc_format := get_csc_format_for_x264_format cs,
                      encoding_preset := 2,
                      preset := x264_preset_names.getD 2 "",
                      profile := get_profile_for_quality initial_quality }
  let c2 := { c1 with csc_algo := get_csc_algo_for_quality initial_quality }
  -- x264_encoder_open with i_csp = colour_sampling,
  -- rc.f_rf_constant = x264_quality, profile applied:
  let c3 := { c2 with encoder := c2.encoder + 1,
                      width := width, height := height }
  let c4e := init_encoder_csc c3
  (c4e.1, [Event.engineOpen] ++ c4e.2)

/-- `struct x264lib_ctx *init_encoder(int width, int height,
int initial_quality, int supports_csc_option)`. -/
def init_encoder (width height initial_quality : Int)
    (supports_csc_option : Bool) : X264Ctx × List Event :=
  do_init_encoder emptyX264Ctx width height initial_quality supports_csc_option

/-- `void clean_encoder(struct x264lib_ctx *ctx)`. -/
def clean_encoder (ctx : X264Ctx) : X264Ctx × List Event :=
  let e1 : List Event := if ctx.rgb2yuv ≠ 0 then [Event.cscFree] else []
  let e2 : List Event := if ctx.encoder ≠ 0 then [Event.engineClose] else []
  ({ ctx with rgb2yuv := 0, encoder := 0 }, e1 ++ e2)

/-! ## Live reconfiguration (x264lib.c lines 416-486) -/

/-- The C expression `q & ~0x1` (clear the lowest bit; on two's-complement
ints this equals `q - q mod 2` with the nonnegative `mod`). -/
def clearLowBit (q : Int) : Int := q - q % 2

/-- `int new_preset = 7-MAX(0, MIN(7, pct/12.5));` from
`set_encoding_speed`: the double expression `7 - clamp(pct/12.5, 0, 7)` is
nonnegative, so the C int conversion (truncation toward zero) is `Int.floor`. -/
def new_preset_for_speed (pct : Int) : Int :=
  Int.floor ((7 : ℚ) - max 0 (min 7 ((pct : ℚ) / 12.5)))

/-- `void set_encoding_speed(struct x264lib_ctx *ctx, int pct)`: no-op when
the preset index is unchanged; otherwise stores the new index and
soft-reconfigures the engine (with the preset's default parameters and the
baseline profile). -/
def set_encoding_speed (ctx : X264Ctx) (pct : Int) : X264Ctx × List Event :=
  let new_preset := new_preset_for_speed pct
  if new_preset = ctx.encoding_preset then (ctx, [])
  else ({ ctx with encoding_preset := new_preset }, [Event.engineReconfig])

/-- `void set_encoding_quality(struct x264lib_ctx *ctx, int pct)`:
hard reconfiguration (clean + re-init) when the colour sampling changes;
otherwise a soft engine reconfiguration when the quality changed beyond the
lowest bit (`(ctx->quality & ~0x1) != (pct & ~0x1)`); finally the csc
converter is rebuilt if the csc algorithm changed. -/
def set_encoding_quality (ctx : X264Ctx) (pct : Int) : X264Ctx × List Event :=
  if ctx.supports_csc_option = true ∧
      get_x264_colour_sampling ctx pct ≠ ctx.colour_sampling then
    let ce := clean_encoder ctx
    let di := do_init_encoder ce.1 ce.1.width ce.1.height pct
                ce.1.supports_csc_option
    (di.1, ce.2 ++ di.2)
  else
    let c1 := if clearLowBit ctx.quality ≠ clearLowBit pct then
        { ctx with quality := pct, x264_quality := get_x264_quality pct }
      else ctx
    let e1 : List Event := if clearLowBit ctx.quality ≠ clearLowBit pct then
        [Event.engineReconfig] else []
    let old_csc_algo := c1.csc_algo
    let c2 := { c1 with csc_algo := get_csc_algo_for_quality pct }
    if old_csc_algo ≠ c2.csc_algo then
      ({ c2 with rgb2yuv := c2.rgb2yuv + 1 }, e1 ++ [Event.cscBuild])
    else
      (c2, e1)

/-! ## Encoding one frame (x264lib.c lines 295-333) -/

/-- Result of `compress_image`: return code, whether `free_csc_image(pic_in)`
was called before returning, and the values left in the caller's `*out` /
`*outsz` output parameters (`none` = NULL pointer). -/
structure CompressOut where
  ret : Int
  input_freed : Bool
  out : Option Nat
  outsz : Int
deriving DecidableEq, Repr

/-- `int compress_image(struct x264lib_ctx *ctx, x264_picture_t *pic_in,
uint8_t **out, int *outsz, int quality_override)`.  The engine call
`x264_encoder_encode` is modelled by its outcome: the returned `frame_size`
and the NAL payload pointer `payload`.  `quality_override` only patches the
per-frame parameter block attached to `pic_in` (which is freed on every
path), so it does not affect the observable result modelled here.
`out0`/`outsz0` are the values the output parameters held at entry. -/
def compress_image (ctx : X264Ctx) (frame_size : Int) (payload : Nat)
    (_quality_override : Int) (_out0 : Option Nat) (_outsz0 : Int) :
    CompressOut :=
  if ctx.encoder = 0 ∨ ctx.rgb2yuv = 0 then
    { ret := 1, input_freed := true, out := none, outsz := 0 }
  else if frame_size < 0 then
    { ret := 2, input_freed := true, out := none, outsz := 0 }
  else
    { ret := 0, input_freed := true, out := some payload,
      outsz := frame_size }

/-! ## Decoder context (x264lib.c lines 224-273, 364-414) -/

/-- Decoder-side view of `struct x264lib_ctx`.  `codec` models the non-NULL
state of the `AVCodec*` field, `codec_ctx` the non-NULL state of the
`AVCodecContext*` field, and `codec_opened` the external engine state of
whether `avcodec_open2` succeeded on that context.  `yuv2rgb` is a handle
generation counter (0 = NULL). -/
structure DecCtx where
  width : Int
  height : Int
  csc_format : Int
  csc_algo : Nat
  yuv2rgb : Nat
  codec : Bool
  codec_ctx : Bool
  codec_opened : Bool
deriving DecidableEq, Repr

/-- The all-zero (memset) decoder context. -/
def emptyDecCtx : DecCtx :=
  { width := 0, height := 0, csc_format := 0, csc_algo := 0, yuv2rgb := 0,
    codec := false, codec_ctx := false, codec_opened := false }

/-- `int init_decoder_context(struct x264lib_ctx *ctx, int width, int height,
int csc_fmt)`: defaults a negative format to YUV420P, builds the YUV→RGB
converter, then finds and opens the H264 decoder.  The external outcomes of
`avcodec_find_decoder` and `avcodec_open2` are passed as `find_ok` /
`open_ok`.  Returns the updated context and the C return code (1 = failure,
0 = success). -/
def init_decoder_context (ctx : DecCtx) (width height csc_fmt : Int)
    (find_ok open_ok : Bool) : DecCtx × Int :=
  let fmt := if csc_fmt < 0 then PIX_FMT_YUV420P else csc_fmt
  let c0 := { ctx with width := width, height := height, csc_format := fmt,
                       csc_algo := get_csc_algo_for_quality 100,
                       yuv2rgb := ctx.yuv2rgb + 1 }
  if find_ok = false then
    ({ c0 with codec := false }, 1)
  else
    let c1 := { c0 with codec := true, codec_ctx := true }
    if open_ok = false then
      ({ c1 with codec_opened := false }, 1)
    else
      ({ c1 with codec_opened := true }, 0)

/-- `struct x264lib_ctx *init_decoder(int width, int height, int csc_fmt)`:
NULL (`none`) when `init_decoder_context` fails. -/
def init_decoder (width height csc_fmt : Int) (find_ok open_ok : Bool) :
    Option DecCtx :=
  let r := init_decoder_context emptyDecCtx width height csc_fmt
             find_ok open_ok
  if r.2 ≠ 0 then none else some r.1

/-- `void clean_decoder(struct x264lib_ctx *ctx)`: closes and frees the codec
context and the converter (the stale `codec` pointer field is not cleared by
the C code). -/
def clean_decoder (ctx : DecCtx) : DecCtx :=
  { ctx with codec_ctx := false, codec_opened := false, yuv2rgb := 0 }

/-- `void set_decoder_csc_format(struct x264lib_ctx *ctx, int csc_fmt)`:
no-op when the (defaulted) format is unchanged; otherwise cleans the decoder
and re-initializes it with the new format.  On re-initialization failure the
C code only prints "Failed to reconfigure decoder" and returns, keeping the
partially re-initialized context. -/
def set_decoder_csc_format (ctx : DecCtx) (csc_fmt : Int)
    (find_ok open_ok : Bool) : DecCtx :=
  let fmt := if csc_fmt < 0 then PIX_FMT_YUV420P else csc_fmt
  if ctx.csc_format ≠ fmt then
    (init_decoder_context (clean_decoder ctx) ctx.width ctx.height fmt
       find_ok open_ok).1
  else
    ctx

/-- The `AVFrame picture` produced by `avcodec_decode_video2`: the three
plane pointers (0 = NULL) and line sizes.  When the engine produced no frame
on this call the planes are NULL and the line sizes 0. -/
structure AVFrame where
  data0 : Nat
  data1 : Nat
  data2 : Nat
  linesize0 : Int
  linesize1 : Int
  linesize2 : Int
deriving DecidableEq, Repr

/-- Result of x264lib's `decompress_image`: return code and the values left
in the caller's `*out` (three plane pointers), `*outsize` and `*outstride`
output parameters. -/
structure X264DecodeOut where
  ret : Int
  out0 : Nat
  out1 : Nat
  out2 : Nat
  outsize : Int
  outstride0 : Int
  outstride1 : Int
  outstride2 : Int
deriving DecidableEq, Repr

/-- `int decompress_image(struct x264lib_ctx *ctx, uint8_t *in, int size,
uint8_t *(*out)[3], int *outsize, int (*outstride)[3])` from x264lib.c.
The engine call is modelled by its outcome: the return value `len` of
`avcodec_decode_video2` and the produced `picture` (`got_picture` is written
by the engine but never read by this code).  `o0`/`outsize0`/`st0` are the
values the output parameters held at entry; note the code accumulates
`*outsize += ...` without zeroing it first. -/
def decompress_image (ctx : DecCtx) (len : Int) (picture : AVFrame)
    (_got_picture : Bool) (o0 : Nat × Nat × Nat) (outsize0 : Int)
    (st0 : Int × Int × Int) : X264DecodeOut :=
  if ctx.codec_ctx = false ∨ ctx.codec = false then
    { ret := 1, out0 := o0.1, out1 := o0.2.1, out2 := o0.2.2,
      outsize := outsize0, outstride0 := st0.1, outstride1 := st0.2.1,
      outstride2 := st0.2.2 }
  else if len < 0 then
    -- memset(out, 0, sizeof(*out))
    { ret := 2, out0 := 0, out1 := 0, out2 := 0, outsize := outsize0,
      outstride0 := st0.1, outstride1 := st0.2.1, outstride2 := st0.2.2 }
  else
    let outsize := outsize0 + ctx.height * picture.linesize0
      + ctx.height * picture.linesize1 + ctx.height * picture.linesize2
    if outsize = 0 then
      { ret := 3, out0 := picture.data0, out1 := picture.data1,
        out2 := picture.data2, outsize := outsize,
        outstride0 := picture.linesize0, outstride1 := picture.linesize1,
        outstride2 := picture.linesize2 }
    else
      { ret := 0, out0 := picture.data0, out1 := picture.data1,
        out2 := picture.data2, outsize := outsize,
        outstride0 := picture.linesize0, outstride1 := picture.linesize1,
        outstride2 := picture.linesize2 }

/-! ## The VP8 variant (vpxlib.c) -/

namespace Vpx

/-- The `vpx_image_t` returned by `vpx_codec_get_frame`: plane pointers,
strides and the image height `h`. -/
structure VpxImg where
  plane0 : Nat
  plane1 : Nat
  plane2 : Nat
  stride0 : Int
  stride1 : Int
  stride2 : Int
  h : Int
deriving DecidableEq, Repr

/-- `int compress_image(struct vpx_context *ctx, vpx_image_t *image,
uint8_t **out, int *outsz)` from vpxlib.c.  The engine calls are modelled by
their outcomes: the return code `encode_ret` of `vpx_codec_encode`, whether
the packet returned by `vpx_codec_get_cx_data` has kind
VPX_CODEC_CX_FRAME_PKT, and the packet's frame buffer/size.  `vpx_img_free`
is called on every path; the output parameters are written only on
success. -/
def compress_image (encode_ret : Int) (pkt_kind_is_frame : Bool)
    (buf : Nat) (sz : Int) (out0 : Option Nat) (outsz0 : Int) : CompressOut :=
  if encode_ret ≠ 0 then
    { ret := encode_ret, input_freed := true, out := out0, outsz := outsz0 }
  else if pkt_kind_is_frame = false then
    { ret := 1, input_freed := true, out := out0, outsz := outsz0 }
  else
    { ret := 0, input_freed := true, out := some buf, outsz := sz }

/-- Result of vpxlib's `decompress_image`: return code and the values left in
the caller's output parameters. -/
structure VpxDecodeOut where
  ret : Int
  out0 : Nat
  out1 : Nat
  out2 : Nat
  outsize : Int
  outstride0 : Int
  outstride1 : Int
  outstride2 : Int
deriving DecidableEq, Repr

/-- `int decompress_image(struct vpx_context *ctx, uint8_t *in, int size,
uint8_t *(*out)[3], int *outsize, int (*outstride)[3])` from vpxlib.c.
The engine calls are modelled by their outcomes: whether `vpx_codec_decode`
failed (`decode_err`), and the frame returned by `vpx_codec_get_frame`
(`none` = no frame produced on this call).  Both failure cases return -1 and
leave the output parameters untouched; on success `*outsize` is zeroed and
then accumulated. -/
def decompress_image (decode_err : Bool) (img : Option VpxImg)
    (o0 : Nat × Nat × Nat) (outsize0 : Int) (st0 : Int × Int × Int) :
    VpxDecodeOut :=
  if decode_err = true then
    { ret := -1, out0 := o0.1, out1 := o0.2.1, out2 := o0.2.2,
      outsize := outsize0, outstride0 := st0.1, outstride1 := st0.2.1,
      outstride2 := st0.2.2 }
  else
    match img with
    | none =>
      { ret := -1, out0 := o0.1, out1 := o0.2.1, out2 := o0.2.2,
        outsize := outsize0, outstride0 := st0.1, outstride1 := st0.2.1,
        outstride2 := st0.2.2 }
    | some im =>
      { ret := 0, out0 := im.plane0, out1 := im.plane1, out2 := im.plane2,
        outsize := 0 + im.stride0 * im.h + im.stride1 * im.h
          + im.stride2 * im.h,
        outstride0 := im.stride0, outstride1 := im.stride1,
        outstride2 := im.stride2 }

end Vpx

/-! ## Spec-side definitions (for refinement claims) -/

/-- Spec formula for the quantizer (C1):
`round(Q_MAX - qualityPct * (Q_MAX - Q_MIN) / 100)` with Q_MIN=1, Q_MAX=50,
i.e. `round(50 - pct * 49 / 100)` with no clamping. -/
def quantizer_formula_spec (pct : Int) : Int :=
  round ((50 : ℚ) - (pct : ℚ) * 49 / 100)

/-- Spec formula for the speed preset index (C5):
`presetIndex = 7 - clamp(round(speedPct/12.5), 0, 7)`. -/
def preset_formula_spec (pct : Int) : Int :=
  7 - min 7 (max 0 (round ((pct : ℚ) / 12.5)))

/-- The chroma-sampling/profile pairing named by the spec (C4): 4:2:0 pairs
with the baseline profile, 4:2:2 with high422, 4:4:4 with high444. -/
def csp_profile_consistent (cs : X264_CSP) (p : String) : Bool :=
  match cs with
  | X264_CSP.I420 => p = PROFILE_BASELINE
  | X264_CSP.I422 => p = PROFILE_HIGH422
  | X264_CSP.I444 => p = PROFILE_HIGH444_PREDICTIVE

/-! ## Evaluation bridges: the ℚ formulas as integer floor divisions

These lemmas restate the rational rounding/truncation expressions as integer
(floor) divisions, so that concrete instances can be checked by `decide`. -/

theorem get_x264_quality_eval (pct : Int) :
    get_x264_quality pct = (5050 - 49 * min 100 (max 0 pct)) / 100 := by
  unfold get_x264_quality
  rw [round_eq]
  have h : (50 : ℚ) - ((min 100 (max 0 pct) : Int) : ℚ) * 49 / 100 + 1 / 2
      = ((5050 - 49 * min 100 (max 0 pct) : Int) : ℚ) / ((100 : ℕ) : ℚ) := by
    push_cast
    ring
  rw [h, Rat.floor_intCast_div_natCast]
  norm_num

theorem new_preset_for_speed_eval (pct : Int) :
    new_preset_for_speed pct = min 7 (max 0 ((175 - 2 * pct) / 25)) := by
  unfold new_preset_for_speed
  have hy : ((pct : ℚ)) / 12.5
      = (7 : ℚ) - ((175 - 2 * pct : Int) : ℚ) / ((25 : ℕ) : ℚ) := by
    push_cast
    ring_nf
  rw [hy]
  set z : ℚ := ((175 - 2 * pct : Int) : ℚ) / ((25 : ℕ) : ℚ) with hz
  have hq : (7 : ℚ) - max 0 (min 7 ((7 : ℚ) - z)) = min 7 (max 0 z) := by
    rcases le_total z 0 with h | h <;> rcases le_total z 7 with h7 | h7 <;>
      simp [min_def, max_def] <;> split_ifs <;> linarith
  rw [hq]
  have h3 : (⌊min (7 : ℚ) (max (0 : ℚ) z)⌋ : ℤ) = min ⌊(7 : ℚ)⌋ ⌊max (0 : ℚ) z⌋ :=
    Int.floor_mono.map_min
  have h4 : (⌊max (0 : ℚ) z⌋ : ℤ) = max ⌊(0 : ℚ)⌋ ⌊z⌋ := Int.floor_mono.map_max
  rw [h3, h4, hz, Rat.floor_intCast_div_natCast]
  norm_num

theorem preset_formula_spec_eval (pct : Int) :
    preset_formula_spec pct = 7 - min 7 (max 0 ((4 * pct + 25) / 50)) := by
  unfold preset_formula_spec
  rw [round_eq]
  have h : ((pct : ℚ)) / 12.5 + 1 / 2
      = ((4 * pct + 25 : Int) : ℚ) / ((50 : ℕ) : ℚ) := by
    push_cast
    ring_nf
  rw [h, Rat.floor_intCast_div_natCast]
  norm_num

theorem ceil_speed_div_eval (pct : Int) :
    Int.ceil ((pct : ℚ) / 12.5) = -((-(2 * pct)) / 25) := by
  have h : ((pct : ℚ)) / 12.5 = -(((-(2 * pct) : Int) : ℚ) / ((25 : ℕ) : ℚ)) := by
    push_cast
    ring_nf
  rw [h, Int.ceil_neg, Rat.floor_intCast_div_natCast]
  norm_num

/-! ## Claim C1 -/

/-- C1: for every quality percentage pct in [0,100], the quantizer derived by
`get_x264_quality` equals the spec formula `round(50 - pct * 49 / 100)`
(the clamp is the identity on [0,100]); quality 100 yields the best (lowest)
quantizer 1 and quality 0 the worst quantizer 50. -/
theorem get_x264_quality_matches_spec (pct : Int) (h0 : 0 ≤ pct)
    (h1 : pct ≤ 100) :
    get_x264_quality pct = quantizer_formula_spec pct
    ∧ get_x264_quality 100 = 1 ∧ get_x264_quality 0 = 50 := by
  refine ⟨?_, ?_, ?_⟩
  · unfold get_x264_quality quantizer_formula_spec
    rw [max_eq_right h0, min_eq_right h1]
  · rw [get_x264_quality_eval]
    decide
  · rw [get_x264_quality_eval]
    decide

/-- Witness for C1 at pct = 90. -/
theorem get_x264_quality_matches_spec_witness :
    get_x264_quality 90 = quantizer_formula_spec 90
    ∧ get_x264_quality 100 = 1 ∧ get_x264_quality 0 = 50 :=
  get_x264_quality_matches_spec 90 (by decide) (by decide)

/-! ## Claim C10 -/

/-- C10: the quantizer derivation is total over all integers: it equals its
value on the input clamped into [0,100], and its result always lies in
[1,50]. -/
theorem get_x264_quality_total_clamped (pct : Int) :
    get_x264_quality pct = get_x264_quality (min 100 (max 0 pct))
    ∧ 1 ≤ get_x264_quality pct ∧ get_x264_quality pct ≤ 50 := by
  refine ⟨?_, ?_, ?_⟩
  · unfold get_x264_quality
    rw [max_eq_right (le_min (by norm_num) (le_max_left 0 pct)),
        min_eq_right (min_le_left _ _)]
  · rw [get_x264_quality_eval]
    omega
  · rw [get_x264_quality_eval]
    omega

/-! ## Claim C2 -/

/-- C2: for every quality percentage pct in [0,100], with chroma switching
enabled the colour-sampling selection returns 4:2:0 for pct < 80, 4:2:2 for
80 ≤ pct < 90 and 4:4:4 for pct ≥ 90; with it disabled it returns 4:2:0 for
every pct. -/
theorem get_x264_colour_sampling_thresholds (ctx : X264Ctx) (pct : Int)
    (h0 : 0 ≤ pct) (h1 : pct ≤ 100) :
    (ctx.supports_csc_option = true →
      (pct < 80 → get_x264_colour_sampling ctx pct = X264_CSP.I420)
      ∧ (80 ≤ pct → pct < 90 → get_x264_colour_sampling ctx pct = X264_CSP.I422)
      ∧ (90 ≤ pct → get_x264_colour_sampling ctx pct = X264_CSP.I444))
    ∧ (ctx.supports_csc_option = false →
        get_x264_colour_sampling ctx pct = X264_CSP.I420) := by
  unfold get_x264_colour_sampling I422_MIN_QUALITY I444_MIN_QUALITY
  constructor
  · intro hs
    refine ⟨fun hlt => ?_, fun hge hlt => ?_, fun hge => ?_⟩ <;>
      simp only [hs, Bool.true_eq_false, false_or] <;>
      split_ifs <;> first | rfl | omega
  · intro hs
    simp [hs]

/-- Witness for C2 at an enabled context and pct = 85. -/
theorem get_x264_colour_sampling_thresholds_witness :
    get_x264_colour_sampling (init_encoder 16 16 50 true).1 85
      = X264_CSP.I422 := by
  have h := get_x264_colour_sampling_thresholds (init_encoder 16 16 50 true).1
    85 (by decide) (by decide)
  exact (h.1 rfl).2.1 (by decide) (by decide)

/-! ## Claim C5 (corrected) -/

/-- C5 counterexample: at speed pct = 30 the preset index computed by
`set_encoding_speed` is 4 (the C code truncates `7 - clamp(pct/12.5,0,7)`),
while the spec formula `7 - clamp(round(pct/12.5), 0, 7)` gives 5. -/
theorem speed_preset_claim_false_at_30 :
    (set_encoding_speed (init_encoder 16 16 50 true).1 30).1.encoding_preset
        = 4
    ∧ preset_formula_spec 30 = 5
    ∧ new_preset_for_speed 30 ≠ preset_formula_spec 30 := by
  refine ⟨?_, ?_, ?_⟩
  · simp [set_encoding_speed, new_preset_for_speed_eval, init_encoder,
      do_init_encoder, init_encoder_csc, emptyX264Ctx]
  · rw [preset_formula_spec_eval]
    decide
  · rw [preset_formula_spec_eval, new_preset_for_speed_eval]
    decide

/-- C5 (amended): for every speed pct in [0,100] the preset index computed by
`set_encoding_speed` equals `7 - clamp(ceil(pct/12.5), 0, 7)` — the C int
conversion truncates the clamped value, which makes the subtracted term a
ceiling, not a rounding; speed 100 still maps to the fastest preset 0 and
speed 0 to the slowest preset 7. -/
theorem set_encoding_speed_preset_index (ctx : X264Ctx) (pct : Int)
    (h0 : 0 ≤ pct) (h1 : pct ≤ 100) :
    (set_encoding_speed ctx pct).1.encoding_preset = new_preset_for_speed pct
    ∧ new_preset_for_speed pct
        = 7 - min 7 (max 0 (Int.ceil ((pct : ℚ) / 12.5)))
    ∧ new_preset_for_speed 100 = 0 ∧ new_preset_for_speed 0 = 7 := by
  refine ⟨?_, ?_, ?_, ?_⟩
  · simp only [set_encoding_speed]
    split_ifs with h
    · exact h.symm
    · rfl
  · rw [new_preset_for_speed_eval, ceil_speed_div_eval]
    omega
  · rw [new_preset_for_speed_eval]
    decide
  · rw [new_preset_for_speed_eval]
    decide

/-- Witness for C5 (amended) at pct = 30. -/
theorem set_encoding_speed_preset_index_witness :
    (set_encoding_speed (init_encoder 16 16 50 true).1 30).1.encoding_preset
        = new_preset_for_speed 30
    ∧ new_preset_for_speed 30
        = 7 - min 7 (max 0 (Int.ceil (((30 : Int) : ℚ) / 12.5)))
    ∧ new_preset_for_speed 100 = 0 ∧ new_preset_for_speed 0 = 7 :=
  set_encoding_speed_preset_index (init_encoder 16 16 50 true).1 30
    (by decide) (by decide)

/-! ## Helper lemmas about set_encoding_quality -/

theorem get_x264_colour_sampling_congr (a b : X264Ctx) (pct : Int)
    (h : a.supports_csc_option = b.supports_csc_option) :
    get_x264_colour_sampling a pct = get_x264_colour_sampling b pct := by
  unfold get_x264_colour_sampling
  rw [h]

theorem do_init_encoder_proj (c : X264Ctx) (w hgt q : Int) (s : Bool) :
    (do_init_encoder c w hgt q s).1.quality = q
    ∧ (do_init_encoder c w hgt q s).1.supports_csc_option = s
    ∧ (do_init_encoder c w hgt q s).1.colour_sampling
        = get_x264_colour_sampling
            { emptyX264Ctx with supports_csc_option := s } q
    ∧ (do_init_encoder c w hgt q s).1.profile = get_profile_for_quality q
    ∧ (do_init_encoder c w hgt q s).1.x264_quality = get_x264_quality q
    ∧ (do_init_encoder c w hgt q s).1.csc_algo = get_csc_algo_for_quality q :=
  ⟨rfl, rfl, get_x264_colour_sampling_congr _ _ q rfl, rfl, rfl, rfl⟩

/-- If the stored quality already matches `pct` up to the lowest bit, the
colour sampling derived for `pct` matches the stored one (when the capability
flag is set), and the csc algorithm is already the derived one, then
`set_encoding_quality` leaves the context untouched and performs no engine or
converter operation. -/
theorem set_encoding_quality_noop (c : X264Ctx) (pct : Int)
    (h1 : clearLowBit c.quality = clearLowBit pct)
    (h2 : c.supports_csc_option = true →
      get_x264_colour_sampling c pct = c.colour_sampling)
    (h3 : c.csc_algo = get_csc_algo_for_quality pct) :
    set_encoding_quality c pct = (c, []) := by
  have hni : ¬(c.supports_csc_option = true ∧
      get_x264_colour_sampling c pct ≠ c.colour_sampling) := by
    rintro ⟨hs, hne⟩
    exact hne (h2 hs)
  simp only [set_encoding_quality]
  rw [if_neg hni]
  have hmask : (clearLowBit c.quality ≠ clearLowBit pct) = False :=
    eq_false (not_ne_iff.mpr h1)
  simp only [hmask, if_false]
  have halgo : (c.csc_algo ≠ get_csc_algo_for_quality pct) = False :=
    eq_false (not_ne_iff.mpr h3)
  simp only [halgo, if_false]
  rw [← h3]

/-- After any `set_encoding_quality` call, the stored quality agrees with the
requested one up to the lowest bit, the capability flag is unchanged, the
stored colour sampling is the one derived for the requested quality (when the
capability flag is set), and the csc algorithm is the derived one. -/
theorem set_encoding_quality_post (c : X264Ctx) (pct : Int) :
    clearLowBit (set_encoding_quality c pct).1.quality = clearLowBit pct
    ∧ (set_encoding_quality c pct).1.supports_csc_option
        = c.supports_csc_option
    ∧ ((set_encoding_quality c pct).1.supports_csc_option = true →
        get_x264_colour_sampling (set_encoding_quality c pct).1 pct
          = (set_encoding_quality c pct).1.colour_sampling)
    ∧ (set_encoding_quality c pct).1.csc_algo
        = get_csc_algo_for_quality pct := by
  by_cases hA : c.supports_csc_option = true ∧
      get_x264_colour_sampling c pct ≠ c.colour_sampling
  · have hu : (set_encoding_quality c pct).1
        = (do_init_encoder (clean_encoder c).1 (clean_encoder c).1.width
            (clean_encoder c).1.height pct
            (clean_encoder c).1.supports_csc_option).1 := by
      simp only [set_encoding_quality]
      rw [if_pos hA]
    refine ⟨?_, ?_, ?_, ?_⟩
    · rw [hu, (do_init_encoder_proj _ _ _ _ _).1]
    · rw [hu, (do_init_encoder_proj _ _ _ _ _).2.1]
      rfl
    · intro _
      rw [hu, (do_init_encoder_proj _ _ _ _ _).2.2.1]
      refine get_x264_colour_sampling_congr _ _ pct ?_
      rw [(do_init_encoder_proj _ _ _ _ _).2.1]
    · rw [hu, (do_init_encoder_proj _ _ _ _ _).2.2.2.2.2]
  · have hcs : c.supports_csc_option = true →
        get_x264_colour_sampling c pct = c.colour_sampling := by
      intro hs
      by_contra hne
      exact hA ⟨hs, hne⟩
    have hAf : (c.supports_csc_option = true ∧
        get_x264_colour_sampling c pct ≠ c.colour_sampling) = False :=
      eq_false hA
    simp only [set_encoding_quality, hAf, if_false]
    split_ifs with h1 h2 h3 <;>
      refine ⟨?_, rfl,
        fun hs => (get_x264_colour_sampling_congr _ c pct rfl).trans (hcs hs),
        rfl⟩ <;>
      first
        | rfl
        | exact not_ne_iff.mp h1

/-! ## Claim C6 -/

/-- C6: calling `set_encoding_quality` twice in a row with the same pct
performs no reconfiguration the second time: the second call returns the
state of the first call unchanged (in particular the engine handle and the
converter handle are identical) and performs no engine close/open/reconfig
and no converter rebuild (empty event trace). -/
theorem set_encoding_quality_idempotent (ctx : X264Ctx) (pct : Int) :
    set_encoding_quality (set_encoding_quality ctx pct).1 pct
      = ((set_encoding_quality ctx pct).1, []) := by
  obtain ⟨h1, _, h3, h4⟩ := set_encoding_quality_post ctx pct
  exact set_encoding_quality_noop _ _ h1 h3 h4

/-! ## Claim C3 (corrected) -/

/-- C3 counterexample: open an encoder at quality 50 and call
`set_encoding_quality` with 51.  The quantizer is NOT updated to the value
derived for quality 51: the stored quality stays 50 and the stored x264
quality constant stays the one derived for 50 (the code compares qualities
with the lowest bit masked off, `(ctx->quality & ~0x1) != (pct & ~0x1)`, and
50 and 51 agree under that mask), even though quality 51 would derive a
different quantizer. -/
theorem setQuality_51_quantizer_not_updated :
    (set_encoding_quality (init_encoder 16 16 50 true).1 51).1.quality = 50
    ∧ (set_encoding_quality (init_encoder 16 16 50 true).1 51).1.x264_quality
        = get_x264_quality 50
    ∧ get_x264_quality 51 ≠ get_x264_quality 50 := by
  have hn := set_encoding_quality_noop (init_encoder 16 16 50 true).1 51
    (by decide) (fun _ => by decide) (by decide)
  refine ⟨?_, ?_, ?_⟩
  · rw [hn]
    rfl
  · rw [hn]
    rfl
  · rw [get_x264_quality_eval, get_x264_quality_eval]
    decide

/-- C3 (amended): for an encoder opened at quality 50, a subsequent
`set_encoding_quality` call with 51 leaves the engine instance identity
unchanged, and in fact changes nothing at all: because the code treats
qualities equal up to the lowest bit as unchanged, neither the stored
quality nor the quantizer parameter is touched, and no engine or converter
operation is performed. -/
theorem setQuality_50_to_51_noop (w hgt : Int) (s : Bool) :
    set_encoding_quality (init_encoder w hgt 50 s).1 51
      = ((init_encoder w hgt 50 s).1, []) := by
  apply set_encoding_quality_noop
  · rfl
  · intro _
    unfold init_encoder do_init_encoder init_encoder_csc
    unfold get_x264_colour_sampling I422_MIN_QUALITY
    norm_num
  · rfl

/-! ## Claim C4 (corrected) -/

/-- C4 counterexample: open an encoder at quality 95 with chroma switching
disabled.  The colour sampling is forced to 4:2:0 but the profile is still
chosen from the quality alone, giving the 4:4:4 predictive profile: the
claimed sampling/profile pairing does not hold when chroma switching is
disabled. -/
theorem profile_csp_mismatch_when_disabled :
    (init_encoder 16 16 95 false).1.colour_sampling = X264_CSP.I420
    ∧ (init_encoder 16 16 95 false).1.profile = PROFILE_HIGH444_PREDICTIVE
    ∧ csp_profile_consistent (init_encoder 16 16 95 false).1.colour_sampling
        (init_encoder 16 16 95 false).1.profile = false := by
  refine ⟨rfl, rfl, ?_⟩
  decide

theorem do_init_profile_ok (c : X264Ctx) (w hgt q : Int) :
    csp_profile_consistent (do_init_encoder c w hgt q true).1.colour_sampling
      (do_init_encoder c w hgt q true).1.profile = true := by
  rw [(do_init_encoder_proj _ _ _ _ _).2.2.1,
      (do_init_encoder_proj _ _ _ _ _).2.2.2.1]
  unfold get_x264_colour_sampling get_profile_for_quality
  simp only [Bool.true_eq_false, false_or]
  split_ifs <;> rfl

theorem set_encoding_quality_profile_ok (c : X264Ctx) (pct : Int)
    (hs : c.supports_csc_option = true)
    (hinv : csp_profile_consistent c.colour_sampling c.profile = true) :
    csp_profile_consistent (set_encoding_quality c pct).1.colour_sampling
      (set_encoding_quality c pct).1.profile = true := by
  by_cases hA : c.supports_csc_option = true ∧
      get_x264_colour_sampling c pct ≠ c.colour_sampling
  · have hu : (set_encoding_quality c pct).1
        = (do_init_encoder (clean_encoder c).1 (clean_encoder c).1.width
            (clean_encoder c).1.height pct
            (clean_encoder c).1.supports_csc_option).1 := by
      simp only [set_encoding_quality]
      rw [if_pos hA]
    rw [hu]
    rw [show (clean_encoder c).1.supports_csc_option = true from hs]
    exact do_init_profile_ok _ _ _ _
  · have hAf : (c.supports_csc_option = true ∧
        get_x264_colour_sampling c pct ≠ c.colour_sampling) = False :=
      eq_false hA
    simp only [set_encoding_quality, hAf, if_false]
    split_ifs <;> exact hinv

/-- C4 (amended): the spec's sampling/profile pairing (4:2:0 ↔ baseline,
4:2:2 ↔ high422, 4:4:4 ↔ high444 predictive) holds after open and is
preserved by every `set_encoding_quality` call whenever chroma switching is
ENABLED; with chroma switching disabled the sampling is forced to 4:2:0
while the profile still follows the quality thresholds, so the pairing can
fail there. -/
theorem profile_csp_consistent_when_enabled (w hgt q : Int) (ctx : X264Ctx)
    (pct : Int) (hs : ctx.supports_csc_option = true)
    (hinv : csp_profile_consistent ctx.colour_sampling ctx.profile = true) :
    csp_profile_consistent (init_encoder w hgt q true).1.colour_sampling
        (init_encoder w hgt q true).1.profile = true
    ∧ csp_profile_consistent
        (set_encoding_quality ctx pct).1.colour_sampling
        (set_encoding_quality ctx pct).1.profile = true :=
  ⟨do_init_profile_ok _ _ _ _,
   set_encoding_quality_profile_ok ctx pct hs hinv⟩

/-- Witness for C4 (amended): an encoder opened at quality 85 with switching
enabled, then reconfigured to quality 95. -/
theorem profile_csp_consistent_when_enabled_witness :
    csp_profile_consistent (init_encoder 16 16 85 true).1.colour_sampling
        (init_encoder 16 16 85 true).1.profile = true
    ∧ csp_profile_consistent
        (set_encoding_quality (init_encoder 16 16 85 true).1 95).1.colour_sampling
        (set_encoding_quality (init_encoder 16 16 85 true).1 95).1.profile
          = true :=
  profile_csp_consistent_when_enabled 16 16 85 (init_encoder 16 16 85 true).1
    95 (by decide) (by decide)

/-! ## Claim C7 (corrected) -/

/-- C7 counterexample: in vpxlib's `compress_image`, when the engine encode
call fails (nonzero return), the input image is freed but the caller's
output pointer and size are left untouched (here: still the entry values
`some 5` and 7), not set to NULL and zero as claimed. -/
theorem vpx_compress_failure_output_untouched :
    (Vpx.compress_image 1 true 2 3 (some 5) 7).ret ≠ 0
    ∧ (Vpx.compress_image 1 true 2 3 (some 5) 7).input_freed = true
    ∧ (Vpx.compress_image 1 true 2 3 (some 5) 7).out = some 5
    ∧ (Vpx.compress_image 1 true 2 3 (some 5) 7).outsz = 7 := by
  decide

/-- C7 (amended): on every return path of both encoders the input image
buffer is freed before returning; on the failure paths the x264 encoder sets
the output pointer to NULL with size zero, while the vpx encoder leaves the
caller's output parameters untouched. -/
theorem compress_image_frees_input (ctx : X264Ctx) (frame_size : Int)
    (payload : Nat) (q0 : Int) (o0 : Option Nat) (sz0 : Int)
    (encode_ret : Int) (pk : Bool) (buf : Nat) (bsz : Int) :
    (compress_image ctx frame_size payload q0 o0 sz0).input_freed = true
    ∧ ((compress_image ctx frame_size payload q0 o0 sz0).ret ≠ 0 →
        (compress_image ctx frame_size payload q0 o0 sz0).out = none
        ∧ (compress_image ctx frame_size payload q0 o0 sz0).outsz = 0)
    ∧ (Vpx.compress_image encode_ret pk buf bsz o0 sz0).input_freed = true
    ∧ ((Vpx.compress_image encode_ret pk buf bsz o0 sz0).ret ≠ 0 →
        (Vpx.compress_image encode_ret pk buf bsz o0 sz0).out = o0
        ∧ (Vpx.compress_image encode_ret pk buf bsz o0 sz0).outsz = sz0) := by
  unfold compress_image Vpx.compress_image
  split_ifs <;> simp_all

/-- Witness for C7 (amended): a failing x264 encode (negative frame size on a
live engine) and a failing vpx encode. -/
theorem compress_image_frees_input_witness :
    (compress_image (init_encoder 16 16 50 true).1 (-1) 0 (-1) (some 9) 4
        ).input_freed = true
    ∧ (compress_image (init_encoder 16 16 50 true).1 (-1) 0 (-1) (some 9) 4
        ).out = none
    ∧ (Vpx.compress_image 1 true 2 3 (some 9) 4).input_freed = true
    ∧ (Vpx.compress_image 1 true 2 3 (some 9) 4).out = some 9 := by
  have h := compress_image_frees_input (init_encoder 16 16 50 true).1 (-1) 0
    (-1) (some 9) 4 1 true 2 3
  refine ⟨h.1, (h.2.1 ?_).1, h.2.2.1, (h.2.2.2 ?_).1⟩
  · decide
  · decide

/-! ## Claim C8 (corrected) -/

/-- C8 counterexample: in vpxlib's `decompress_image` the engine-error case
(`vpx_codec_decode` fails) and the no-frame case (`vpx_codec_get_frame`
returns NULL) are both surfaced as the same return value -1: they are
conflated, contradicting the claim that the two conditions are never the
same error value. -/
theorem vpx_decode_conflates_error_and_noframe :
    (Vpx.decompress_image true (some ⟨1, 1, 1, 16, 16, 16, 16⟩)
        (0, 0, 0) 0 (0, 0, 0)).ret = -1
    ∧ (Vpx.decompress_image false none (0, 0, 0) 0 (0, 0, 0)).ret = -1 := by
  decide

/-- A concrete decoder context freshly opened at 16x16 with format 4:2:0
(both engine lookups succeeding). -/
def dec420 : DecCtx :=
  (init_decoder 16 16 PIX_FMT_YUV420P true true).getD emptyDecCtx

/-- C8 (amended): the x264 decoder surfaces the two conditions distinctly —
return code 2 when the engine reports a decoding error and return code 3
when decoding succeeds but no output is produced on this call — while the
vpx decoder conflates both into the single return value -1. -/
theorem decode_result_conditions (ctx : DecCtx) (hcc : ctx.codec_ctx = true)
    (hc : ctx.codec = true) (len_err len_ok : Int) (pic : AVFrame)
    (gp : Bool) (o0 : Nat × Nat × Nat) (st0 : Int × Int × Int)
    (herr : len_err < 0) (hok : 0 ≤ len_ok)
    (hz : ctx.height * pic.linesize0 + ctx.height * pic.linesize1
      + ctx.height * pic.linesize2 = 0)
    (img : Vpx.VpxImg) (o2 : Nat × Nat × Nat) (sz2 : Int)
    (st2 : Int × Int × Int) :
    (decompress_image ctx len_err pic gp o0 0 st0).ret = 2
    ∧ (decompress_image ctx len_ok pic gp o0 0 st0).ret = 3
    ∧ (Vpx.decompress_image true (some img) o2 sz2 st2).ret = -1
    ∧ (Vpx.decompress_image false none o2 sz2 st2).ret = -1 := by
  refine ⟨?_, ?_, rfl, rfl⟩
  · unfold decompress_image
    rw [if_neg (by simp [hcc, hc]), if_pos herr]
  · unfold decompress_image
    rw [if_neg (by simp [hcc, hc]), if_neg (by omega)]
    simp only [zero_add]
    rw [if_pos (by omega)]

/-- Witness for C8 (amended): the fresh 4:2:0 decoder, a decode error
(len = -1) and a successful decode that produced no frame (all-zero
picture). -/
theorem decode_result_conditions_witness :
    (decompress_image dec420 (-1) ⟨0, 0, 0, 0, 0, 0⟩ false
        (0, 0, 0) 0 (0, 0, 0)).ret = 2
    ∧ (decompress_image dec420 5 ⟨0, 0, 0, 0, 0, 0⟩ false
        (0, 0, 0) 0 (0, 0, 0)).ret = 3
    ∧ (Vpx.decompress_image true (some ⟨1, 1, 1, 16, 16, 16, 16⟩)
        (0, 0, 0) 0 (0, 0, 0)).ret = -1
    ∧ (Vpx.decompress_image false none (0, 0, 0) 0 (0, 0, 0)).ret = -1 :=
  decode_result_conditions dec420 (by decide) (by decide) (-1) 5
    ⟨0, 0, 0, 0, 0, 0⟩ false (0, 0, 0) (0, 0, 0) (by decide) (by decide)
    (by decide) ⟨1, 1, 1, 16, 16, 16, 16⟩ (0, 0, 0) 0 (0, 0, 0)

/-! ## Claim C9 (corrected) -/

/-- C9 counterexample: take the fresh 4:2:0 decoder and reconfigure it to
4:4:4 with the engine re-open failing partway (`avcodec_open2` fails).  The
resulting context is NOT in a terminal broken state requiring close/reopen:
it records the new format with an allocated but unopened codec context, and
a subsequent decode call passes the initialization guard and proceeds
normally (here returning 0 for a produced frame) — the code only logged the
failure and continued. -/
theorem decoder_reconfig_failure_not_broken :
    (set_decoder_csc_format dec420 PIX_FMT_YUV444P true false).codec_opened
        = false
    ∧ (set_decoder_csc_format dec420 PIX_FMT_YUV444P true false).csc_format
        = PIX_FMT_YUV444P
    ∧ (decompress_image (set_decoder_csc_format dec420 PIX_FMT_YUV444P true
        false) 10 ⟨1, 2, 3, 16, 8, 8, ⟩ true (0, 0, 0) 0 (0, 0, 0)).ret
        = 0 := by
  decide

/-- C9 (amended): when a chroma-format reconfiguration of the decoder fails
partway (the engine is found but re-opening it fails), the code merely logs
and continues: the context keeps the new chroma format with an allocated but
unopened codec context, and every subsequent decode call passes the
initialization guard (it is never rejected with the not-initialized error 1);
no terminal broken state exists and no close/reopen is forced. -/
theorem decoder_reconfig_failure_continues (ctx : DecCtx) (csc_fmt : Int)
    (hne : ctx.csc_format
      ≠ (if csc_fmt < 0 then PIX_FMT_YUV420P else csc_fmt)) :
    (set_decoder_csc_format ctx csc_fmt true false).codec = true
    ∧ (set_decoder_csc_format ctx csc_fmt true false).codec_ctx = true
    ∧ (set_decoder_csc_format ctx csc_fmt true false).codec_opened = false
    ∧ (set_decoder_csc_format ctx csc_fmt true false).csc_format
        = (if csc_fmt < 0 then PIX_FMT_YUV420P else csc_fmt)
    ∧ ∀ (len : Int) (pic : AVFrame) (gp : Bool) (o0 : Nat × Nat × Nat)
        (sz0 : Int) (st0 : Int × Int × Int),
        (decompress_image (set_decoder_csc_format ctx csc_fmt true false)
          len pic gp o0 sz0 st0).ret ≠ 1 := by
  have hu : set_decoder_csc_format ctx csc_fmt true false
      = (init_decoder_context (clean_decoder ctx) ctx.width ctx.height
          (if csc_fmt < 0 then PIX_FMT_YUV420P else csc_fmt) true false).1 := by
    simp only [set_decoder_csc_format]
    rw [if_pos hne]
  rw [hu]
  have hproj : (init_decoder_context (clean_decoder ctx) ctx.width ctx.height
      (if csc_fmt < 0 then PIX_FMT_YUV420P else csc_fmt) true false).1
      = { clean_decoder ctx with
            width := ctx.width, height := ctx.height,
            csc_format := if (if csc_fmt < 0 then PIX_FMT_YUV420P else csc_fmt)
              < 0 then PIX_FMT_YUV420P
              else (if csc_fmt < 0 then PIX_FMT_YUV420P else csc_fmt),
            csc_algo := get_csc_algo_for_quality 100,
            yuv2rgb := (clean_decoder ctx).yuv2rgb + 1,
            codec := true, codec_ctx := true, codec_opened := false } := by
    simp only [init_decoder_context]
    norm_num
  rw [hproj]
  have hfmt : (if (if csc_fmt < 0 then PIX_FMT_YUV420P else csc_fmt) < 0
      then PIX_FMT_YUV420P
      else (if csc_fmt < 0 then PIX_FMT_YUV420P else csc_fmt))
      = (if csc_fmt < 0 then PIX_FMT_YUV420P else csc_fmt) := by
    unfold PIX_FMT_YUV420P
    split_ifs <;> omega
  rw [hfmt]
  refine ⟨rfl, rfl, rfl, rfl, ?_⟩
  intro len pic gp o0 sz0 st0
  unfold decompress_image
  rw [if_neg (by simp)]
  split_ifs <;> simp
  all_goals (split_ifs <;> simp)

/-- Witness for C9 (amended): the fresh 4:2:0 decoder reconfigured to 4:4:4
with the engine re-open failing. -/
theorem decoder_reconfig_failure_continues_witness :
    (set_decoder_csc_format dec420 PIX_FMT_YUV444P true false).codec_ctx
        = true
    ∧ (set_decoder_csc_format dec420 PIX_FMT_YUV444P true false).codec_opened
        = false
    ∧ (decompress_image (set_decoder_csc_format dec420 PIX_FMT_YUV444P true
        false) 7 ⟨0, 0, 0, 0, 0, 0⟩ false (0, 0, 0) 0 (0, 0, 0)).ret ≠ 1 := by
  have h := decoder_reconfig_failure_continues dec420 PIX_FMT_YUV444P
    (by decide)
  exact ⟨h.2.1, h.2.2.1, h.2.2.2.2 7 ⟨0, 0, 0, 0, 0, 0⟩ false (0, 0, 0) 0
    (0, 0, 0)⟩
